import Mathlib

/-!
Shallow embedding of the IPPcode23 interpreter (interpret.py, Frame.py,
Variable.py, Error_enum.py) and proofs about its operational behaviour.

Modelling conventions:
* Python's dynamically typed variable payloads become the tagged union
  `PyVal`; a `Variable` mirrors the `Variable` dataclass (fields `value`,
  `name`, `type`), where `type = ""` is the uninitialized state.
* Python binary64 floats are modelled as exact rationals.  No theorem in
  this development depends on rounding, only on which arithmetic operation
  the interpreter applies and on the control flow around it.
* `sys.exit(code)` surfaces as `Err.exit code`; an uncaught Python
  exception (`AttributeError`, `IndexError`, `ValueError`, ...) surfaces as
  `Err.crash`.
* Python lists used as stacks (`data_stack`, `frame_stack`) are modelled as
  Lean lists whose head is the Python list's last element (the top), so
  `append`/`pop` become `cons`/head-removal.
* Regular expressions from the source are modelled by structurally
  equivalent character-list matchers; `\d` is read as the ASCII decimal
  digits.
-/

namespace IPPcode23

/-- Exit codes from Error_enum.py (the subset the engine itself raises). -/
def Error.Invalid_XML_structure : Nat := 32

/-- Exit code 52. -/
def Error.Semantic_error : Nat := 52

/-- Exit code 53. -/
def Error.Invalid_type : Nat := 53

/-- Exit code 54. -/
def Error.Nonexistent_variable : Nat := 54

/-- Exit code 55. -/
def Error.Frame_not_found : Nat := 55

/-- Exit code 56. -/
def Error.Missing_value : Nat := 56

/-- Exit code 57. -/
def Error.Invalid_value : Nat := 57

/-- Exit code 58. -/
def Error.Bad_string_operation : Nat := 58

/-- How an interpreter step can abort: `exit code` models
`Error.exit(code)` (i.e. `sys.exit(code)`), while `crash` models an
uncaught Python exception escaping the interpreter. -/
inductive Err where
  | exit (code : Nat)
  | crash
deriving DecidableEq, Repr

/-- Dynamic (Python) payload of a variable or stack cell. -/
inductive PyVal where
  | none
  | str (s : String)
  | int (i : Int)
  | bool (b : Bool)
  | float (q : ℚ)
deriving DecidableEq, Repr

/-- Python `==` on the payloads that can actually meet in this
interpreter.  Numeric cross-kind equalities mirror Python; all remaining
cross-kind comparisons are `False` as in Python. -/
def pyEq : PyVal → PyVal → Bool
  | .none, .none => true
  | .str a, .str b => a == b
  | .int a, .int b => a == b
  | .bool a, .bool b => a == b
  | .float a, .float b => a == b
  | .int a, .bool b => a == (if b then (1 : Int) else 0)
  | .bool a, .int b => (if a then (1 : Int) else 0) == b
  | .int a, .float q => ((a : ℚ)) == q
  | .float q, .int a => q == ((a : ℚ))
  | .bool a, .float q => ((if a then (1 : ℚ) else 0)) == q
  | .float q, .bool a => q == ((if a then (1 : ℚ) else 0))
  | _, _ => false

/-- The `Variable` dataclass of Variable.py: `value`, `name`, `type`,
with defaults `None`, `""`, `""`.  `type = ""` marks an uninitialized
slot. -/
structure Variable where
  value : PyVal
  name : String
  type : String
deriving DecidableEq, Repr

/-- The `Frame` class of Frame.py: a dict from identifier to `Variable`,
modelled as an association list (dict insertion order is irrelevant to
every operation performed on it). -/
structure Frame where
  frame : List (String × Variable)
deriving DecidableEq, Repr

/-- Model of `Frame.get`: return the variable or exit 54 (nonexistent-variable). -/
def Frame.get (f : Frame) (id : String) : Except Err Variable :=
  match f.frame.lookup id with
  | some v => .ok v
  | Option.none => .error (.exit Error.Nonexistent_variable)

/-- Model of `Frame.add`: create `Variable(name=var)` (uninitialized) or exit 52
(semantic-error) when the name is already declared. -/
def Frame.add (f : Frame) (var : String) : Except Err Frame :=
  match f.frame.lookup var with
  | some _ => .error (.exit Error.Semantic_error)
  | Option.none => .ok ⟨(var, ⟨.none, var, ""⟩) :: f.frame⟩

/-- The engine state components the verified claims touch: temporary
frame, frame stack, global frame and data stack (instruction cursor, call
stack and label table are not needed by any claim below). -/
structure EngState where
  temporary_frame : Option Frame
  frame_stack : List Frame
  global_frame : Frame
  data_stack : List Variable
deriving DecidableEq, Repr

/-- Model of `Interpret.__get_frame`.  Mirrors the Python control flow exactly: an
unknown frame tag falls off the end of the function and returns `None`
(modelled as `.ok Option.none`); the caller's subsequent attribute access
on that `None` is what actually raises. -/
def getFrame (st : EngState) (frame : String) : Except Err (Option Frame) :=
  if frame = "GF" then .ok (some st.global_frame)
  else if frame = "LF" then
    match st.frame_stack with
    | [] => .error (.exit Error.Frame_not_found)
    | f :: _ => .ok (some f)
  else if frame = "TF" then
    match st.temporary_frame with
    | some f => .ok (some f)
    | Option.none => .error (.exit Error.Frame_not_found)
  else .ok Option.none

/-- Python `str.split(sep)` for a one-character separator. -/
def pySplit (sep : Char) : List Char → List (List Char)
  | [] => [[]]
  | c :: rest =>
    let r := pySplit sep rest
    if c = sep then [] :: r
    else (c :: r.headD []) :: r.tail

/-- An operand descriptor: the XML `type` attribute and the (possibly
absent) text payload, as handed to `__instruction_args`. -/
structure Arg where
  type : String
  text : Option String
deriving DecidableEq, Repr

/-- Destination resolution of `__instruction_args` (`dest=True`): operand
0 must be declared `var` and split into exactly two `@`-parts, else exit
53; then the frame reference is resolved and the slot looked up.  A frame
tag outside GF/LF/TF makes `__get_frame` return `None`, and the `.get`
attribute access on `None` raises `AttributeError` (`Err.crash`). -/
def resolveDest (st : EngState) (a : Arg) : Except Err Variable :=
  let parts := pySplit '@' (a.text.getD "").data
  if a.type ≠ "var" ∨ parts.length ≠ 2 then .error (.exit Error.Invalid_type)
  else
    match getFrame st (String.mk (parts.headD [])) with
    | .error e => .error e
    | .ok Option.none => .error .crash
    | .ok (some f) => f.get (String.mk ((parts.getD 1 [])))

/-- Source `var` operand resolution of `__instruction_args`: the payload
is split and indexed without any arity check.  Python evaluates
`__get_frame(parts[0]).get` first (so an unknown tag crashes with
`AttributeError`), then `parts[1]` (an `IndexError` crash when there is
no `@`), then performs the lookup. -/
def resolveSrcVar (st : EngState) (text : String) : Except Err Variable :=
  let parts := pySplit '@' text.data
  match getFrame st (String.mk (parts.headD [])) with
  | .error e => .error e
  | .ok Option.none => .error .crash
  | .ok (some f) =>
    match parts with
    | _ :: name :: _ => f.get (String.mk name)
    | _ => .error .crash

/-- The per-variable checks of `__instruction_args` on a fetched source
variable: with `take_type` the dataclass truthiness test always passes;
otherwise an empty `type` exits 56 (missing-value) and a type outside the
mask exits 53 (invalid-type). -/
def checkSrcVar (v : Variable) (limit : List String) (take_type : Bool) :
    Except Err Variable :=
  if take_type then .ok v
  else if v.type = "" then .error (.exit Error.Missing_value)
  else if limit.contains v.type then .ok v
  else .error (.exit Error.Invalid_type)

/-- Model of `__get_args_stack`: pop `count` values (top first; exit 56 on an empty
stack), check each against the mask (exit 53), and return them with the
top-of-stack last (`args.insert(0, var)`), together with the remaining
stack. -/
def getArgsStack : Nat → List String → List Variable →
    Except Err (List Variable × List Variable)
  | 0, _, stack => .ok ([], stack)
  | _ + 1, _, [] => .error (.exit Error.Missing_value)
  | n + 1, limits, v :: rest =>
    if limits.contains v.type || limits.contains "" then
      match getArgsStack n limits rest with
      | .ok (args, stack) => .ok (args ++ [v], stack)
      | .error e => .error e
    else .error (.exit Error.Invalid_type)

/-- Value of an ASCII decimal digit. -/
def digitVal (c : Char) : Nat := c.toNat - 48

/-- Character-level body of `__parse_string`: `re.sub(r'\\(\d{3})',
lambda x: chr(int(x.group(1))), string)` — every occurrence of a
backslash followed by exactly three decimal digits is replaced by the
code point those digits denote; the scan is left to right and
non-overlapping, all other characters are copied unchanged. -/
def parseStringAux : List Char → List Char
  | [] => []
  | '\\' :: d1 :: d2 :: d3 :: rest =>
    if d1.isDigit && d2.isDigit && d3.isDigit then
      Char.ofNat (100 * digitVal d1 + 10 * digitVal d2 + digitVal d3) ::
        parseStringAux rest
    else '\\' :: parseStringAux (d1 :: d2 :: d3 :: rest)
  | c :: rest => c :: parseStringAux rest

/-- Model of `__parse_string`: decode escapes; a `None` payload becomes `""`. -/
def parse_string (string : Option String) : String :=
  match string with
  | some s => String.mk (parseStringAux s.data)
  | Option.none => ""

/-- Python `str.strip()` (ASCII whitespace suffices for the inputs the
interpreter feeds it). -/
def pyStrip (s : String) : String :=
  String.mk
    (((s.data.dropWhile Char.isWhitespace).reverse.dropWhile
      Char.isWhitespace).reverse)

/-- ASCII lowering of one character, as `str.lower` performs on the
letters that can matter for the `'true'` comparison. -/
def pyLowerChar (c : Char) : Char :=
  if decide (65 ≤ c.toNat) && decide (c.toNat ≤ 90) then Char.ofNat (c.toNat + 32)
  else c

/-- Python `str.lower()` (ASCII; no non-ASCII lowering can produce
`"true"`). -/
def pyLower (s : String) : String := String.mk (s.data.map pyLowerChar)

/-- Model of `__process_bool`: `value.lower() == 'true'`. -/
def process_bool (value : String) : Bool := pyLower value == "true"

/-- Leading sign of a token, as the multiplier Python's `int`/`float`
apply. -/
def signOf (s : List Char) : Int :=
  match s with
  | '-' :: _ => -1
  | _ => 1

/-- Drop one optional leading `+`/`-`, as `[+-]?` does. -/
def stripSignChars (s : List Char) : List Char :=
  match s with
  | c :: rest => if c = '+' ∨ c = '-' then rest else s
  | [] => []

/-- ASCII hexadecimal digit (`[a-fA-F0-9]`). -/
def isHexDigitChar (c : Char) : Bool :=
  c.isDigit || (decide (97 ≤ c.toNat) && decide (c.toNat ≤ 102)) ||
    (decide (65 ≤ c.toNat) && decide (c.toNat ≤ 70))

/-- Octal digit (`[0-7]`). -/
def isOctDigitChar (c : Char) : Bool :=
  decide (48 ≤ c.toNat) && decide (c.toNat ≤ 55)

/-- Value of a hexadecimal digit. -/
def hexDigitVal (c : Char) : Nat :=
  if c.isDigit then c.toNat - 48
  else if decide (97 ≤ c.toNat) then c.toNat - 87
  else c.toNat - 55

/-- Digit-string value in a given base. -/
def natOfDigits (base : Nat) (dv : Char → Nat) (s : List Char) : Nat :=
  s.foldl (fun acc c => base * acc + dv c) 0

/-- Matcher for `^[+-]?0[Xx][a-fA-F0-9]+$` (the hex alternative of
`__int` and `__float`). -/
def matchesHexInt (s : List Char) : Bool :=
  match stripSignChars s with
  | '0' :: 'x' :: rest => !rest.isEmpty && rest.all isHexDigitChar
  | '0' :: 'X' :: rest => !rest.isEmpty && rest.all isHexDigitChar
  | _ => false

/-- Matcher for `^[+-]?0[Oo]?[0-7]+$` (the octal alternative of
`__int`). -/
def matchesOctInt (s : List Char) : Bool :=
  match stripSignChars s with
  | '0' :: 'o' :: rest => !rest.isEmpty && rest.all isOctDigitChar
  | '0' :: 'O' :: rest => !rest.isEmpty && rest.all isOctDigitChar
  | '0' :: rest => !rest.isEmpty && rest.all isOctDigitChar
  | _ => false

/-- Matcher for `^[+-]?\d+$`. -/
def matchesDecInt (s : List Char) : Bool :=
  let t := stripSignChars s
  !t.isEmpty && t.all Char.isDigit

/-- Digits of a matched hex token (drop the sign and the `0x`/`0X`). -/
def hexPayload (s : List Char) : List Char :=
  match stripSignChars s with
  | _ :: _ :: rest => rest
  | _ => []

/-- Digits of a matched octal token: drop the sign and an explicit
`0o`/`0O` prefix; a bare leading `0` is itself a zero digit and does not
change the value, so it may stay. -/
def octDigitsOf (s : List Char) : List Char :=
  match stripSignChars s with
  | '0' :: 'o' :: rest => rest
  | '0' :: 'O' :: rest => rest
  | t => t

/-- Model of `__int(value, read=True)`: try the hex, octal and decimal grammars in
that order and convert with `int(value, 16/8/10)`; on no match return the
`"nil"` sentinel (here `Option.none`). -/
def intRead (value : String) : Option Int :=
  let cs := value.data
  if matchesHexInt cs then
    some (signOf cs * (natOfDigits 16 hexDigitVal (hexPayload cs) : Int))
  else if matchesOctInt cs then
    some (signOf cs * (natOfDigits 8 digitVal (octDigitsOf cs) : Int))
  else if matchesDecInt cs then
    some (signOf cs * (natOfDigits 10 digitVal (stripSignChars cs) : Int))
  else Option.none

/-- Matcher for `^[+-]?(\d*[.])?\d*$`, the first alternative of
`__float`: after the optional sign, at most one dot and otherwise only
digits — including the empty string, `"."`, `"+"`, ... which `float()`
then rejects. -/
def matchesDecFloatForm (s : List Char) : Bool :=
  let t := stripSignChars s
  decide (t.countP (fun c => c == '.') ≤ 1) &&
    t.all (fun c => (c == '.') || c.isDigit)

/-- Optional `0x`/`0X` prefix of the hex-float grammar. -/
def dropHexPrefix (s : List Char) : List Char :=
  match s with
  | '0' :: 'x' :: rest => rest
  | '0' :: 'X' :: rest => rest
  | _ => s

/-- Exponent tail `([pP][+-]?\d+)?` of the hex-float grammar. -/
def pExponentTail : List Char → Bool
  | [] => true
  | 'p' :: rest =>
    !(stripSignChars rest).isEmpty && (stripSignChars rest).all Char.isDigit
  | 'P' :: rest =>
    !(stripSignChars rest).isEmpty && (stripSignChars rest).all Char.isDigit
  | _ => false

/-- Matcher for `^[+-]?(0[xX])?[01]\.?[0-9a-fA-F]*([pP][+-]?\d+)?$`, the
hex-float alternative of `__float`. -/
def matchesHexFloatForm (s : List Char) : Bool :=
  match dropHexPrefix (stripSignChars s) with
  | c :: rest =>
    if c = '0' ∨ c = '1' then
      pExponentTail
        ((match rest with
          | '.' :: r => r
          | _ => rest).dropWhile isHexDigitChar)
    else false
  | [] => false

/-- Exact value of a matched decimal float token (`float(value)`). -/
def decFloatVal (s : List Char) : ℚ :=
  let t := stripSignChars s
  let ip := t.takeWhile (fun c => !(c == '.'))
  let fp := (t.dropWhile (fun c => !(c == '.'))).drop 1
  (signOf s : ℚ) *
    ((natOfDigits 10 digitVal ip : ℚ) +
      (natOfDigits 10 digitVal fp : ℚ) / ((10 : ℚ) ^ fp.length))

/-- Exponent value of a hex-float token tail. -/
def expVal : List Char → Int
  | 'p' :: rest =>
    signOf rest * (natOfDigits 10 digitVal (stripSignChars rest) : Int)
  | 'P' :: rest =>
    signOf rest * (natOfDigits 10 digitVal (stripSignChars rest) : Int)
  | _ => 0

/-- Exact value of a matched hex-float token (`float.fromhex(value)`). -/
def hexFloatVal (s : List Char) : ℚ :=
  match dropHexPrefix (stripSignChars s) with
  | c :: rest =>
    let hasDot : Bool := match rest with | '.' :: _ => true | _ => false
    let s1 := match rest with | '.' :: r => r | _ => rest
    let digits := s1.takeWhile isHexDigitChar
    let rest2 := s1.dropWhile isHexDigitChar
    let mant : ℚ :=
      if hasDot then
        (hexDigitVal c : ℚ) +
          (natOfDigits 16 hexDigitVal digits : ℚ) / ((16 : ℚ) ^ digits.length)
      else (natOfDigits 16 hexDigitVal (c :: digits) : ℚ)
    (signOf s : ℚ) * mant * (2 : ℚ) ^ expVal rest2
  | [] => 0

/-- Model of `__float(value, read=True)`.  The four regex alternatives are tried
in source order.  The first alternative also matches digit-less tokens
(`""`, `"."`, `"+"`, ...) on which `float(value)` raises `ValueError`
— an uncaught crash, since `read=True` only guards the no-match branch.
`Option.none` is the `"nil"` sentinel of the no-match branch. -/
def floatRead (value : String) : Except Err (Option ℚ) :=
  let cs := value.data
  if matchesDecFloatForm cs then
    if cs.any Char.isDigit then .ok (some (decFloatVal cs))
    else .error .crash
  else if matchesHexInt cs then
    .ok (some ((signOf cs * (natOfDigits 16 hexDigitVal (hexPayload cs) : Int) : Int) : ℚ))
  else if matchesDecInt cs then
    .ok (some ((signOf cs * (natOfDigits 10 digitVal (stripSignChars cs) : Int) : Int) : ℚ))
  else if matchesHexFloatForm cs then .ok (some (hexFloatVal cs))
  else .ok Option.none

/-- One line offered to `READ`: either end-of-stream (`EOFError` from
`input()`) or a line (without its newline, as `input()` returns it). -/
inductive InLine where
  | eof
  | line (s : String)
deriving DecidableEq, Repr

/-- Model of `__process_input` for the interactive source: `input()`, with
end-of-stream turned into the `"nil"` sentinel string. -/
def process_input (inp : InLine) : String :=
  match inp with
  | .eof => "nil"
  | .line s => s

/-- Body of `__read` after operand resolution: `t` is the type token's
value, `inp` the input line.  Mirrors the if/elif chain writing
`dest.value, dest.type`. -/
def readOp (t : String) (inp : InLine) : Except Err Variable :=
  let in_data := process_input inp
  if in_data = "nil" then .ok ⟨.str "nil", "", "nil"⟩
  else if t = "int" then
    match intRead (pyStrip in_data) with
    | some i => .ok ⟨.int i, "", "int"⟩
    | Option.none => .ok ⟨.str "nil", "", "nil"⟩
  else if t = "bool" then
    .ok ⟨.bool (process_bool (pyStrip in_data)), "", "bool"⟩
  else if t = "string" then
    .ok ⟨.str (parse_string (some (pyStrip in_data))), "", "string"⟩
  else if t = "float" then
    match floatRead (pyStrip in_data) with
    | .ok (some q) => .ok ⟨.float q, "", "float"⟩
    | .ok Option.none => .ok ⟨.str "nil", "", "nil"⟩
    | .error e => .error e
  else .ok ⟨.none, "", ""⟩

/-- Model of `__process_output`: the exact text `WRITE`/`print(..., end='')` emits
for a value.  Strings pass through `__parse_string` again at output time;
ints print in decimal; bools as `true`/`false`; nil as `""`.  The
binary64 hex formatting of `float.hex` is kept abstract as a parameter —
no claim below concerns it.  The catch-all `""` arms are unreachable for
the well-formed values this interpreter builds. -/
def process_output (floatHex : ℚ → String) (var : Variable) : String :=
  if var.type = "string" then
    match var.value with
    | .str s => String.mk (parseStringAux s.data)
    | _ => ""
  else if var.type = "int" then
    match var.value with
    | .int i => toString i
    | _ => ""
  else if var.type = "bool" then
    match var.value with
    | .bool b => if b then "true" else "false"
    | _ => ""
  else if var.type = "nil" then ""
  else if var.type = "float" then
    match var.value with
    | .float q => floatHex q
    | _ => ""
  else ""

/-- Model of `__write` for one operand: append `__process_output`'s text to the
standard-output stream, with no trailing newline. -/
def writeOp (floatHex : ℚ → String) (out : String) (var : Variable) :
    String :=
  out ++ process_output floatHex var

/-- Model of `__get_type`: the result type of a binary operation.  Python returns
`None` when the types differ and neither is `float'; every call site has
already enforced equality, so that arm is unreachable there. -/
def get_type (A B : String) : Option String :=
  if A = B then some A
  else if A = "float" ∨ B = "float" then some "float"
  else Option.none

/-- Python `-` on the payloads the `"if"` mask admits (ints and floats);
other payloads would raise `TypeError` and are unreachable behind the
mask. -/
def pySub : PyVal → PyVal → Option PyVal
  | .int a, .int b => some (.int (a - b))
  | .float a, .float b => some (.float (a - b))
  | .int a, .float b => some (.float ((a : ℚ) - b))
  | .float a, .int b => some (.float (a - (b : ℚ)))
  | _, _ => Option.none

/-- Model of `__sub` on already-resolved operands: same-type check (exit 53), then
`arg[0].value - arg[1].value` with type `__get_type`. -/
def subOp (a b : Variable) : Except Err Variable :=
  if a.type ≠ b.type then .error (.exit Error.Invalid_type)
  else
    match pySub a.value b.value with
    | some v => .ok ⟨v, "", (get_type a.type b.type).getD ""⟩
    | Option.none => .error .crash

/-- Model of `__subs`: pop two values through `__get_args_stack(2, "if")`
(`arg[0]` is the value below the top, `arg[1]` the old top), same-type
check, then push `arg[0]` mutated to `arg[0].value - arg[1].value`. -/
def subsOp (stack : List Variable) : Except Err (List Variable) :=
  match getArgsStack 2 ["int", "float"] stack with
  | .error e => .error e
  | .ok (arg, rest) =>
    match arg with
    | [a0, a1] =>
      if a0.type ≠ a1.type then .error (.exit Error.Invalid_type)
      else
        match pySub a0.value a1.value with
        | some v => .ok (⟨v, a0.name, (get_type a0.type a1.type).getD ""⟩ :: rest)
        | Option.none => .error .crash
    | _ => .error .crash

/-- Model of `__idiv` on already-resolved operands (mask `"i"`, so both ints):
exit 57 on a zero divisor, else Python `//`, i.e. `Int.fdiv`. -/
def idivOp (a b : Variable) : Except Err Variable :=
  match a.value, b.value with
  | .int x, .int y =>
    if y = 0 then .error (.exit Error.Invalid_value)
    else .ok ⟨.int (Int.fdiv x y), "", "int"⟩
  | _, _ => .error .crash

/-- Model of `__idivs`: the stack variant, dividing the value below the top by the
old top. -/
def idivsOp (stack : List Variable) : Except Err (List Variable) :=
  match getArgsStack 2 ["int"] stack with
  | .error e => .error e
  | .ok (arg, rest) =>
    match arg with
    | [a0, a1] =>
      match a0.value, a1.value with
      | .int x, .int y =>
        if y = 0 then .error (.exit Error.Invalid_value)
        else .ok (⟨.int (Int.fdiv x y), a0.name, "int"⟩ :: rest)
      | _, _ => .error .crash
    | _ => .error .crash

/-- Model of `__int2floats`: as written, it calls `__get_args_stack(2, "i")` — it
pops TWO stack values — checks `arg[1]` (the old top) is an int, and
pushes `arg[0]` mutated to `float(arg[1].value)`, so the value below the
top is consumed and discarded. -/
def int2floatsOp (stack : List Variable) : Except Err (List Variable) :=
  match getArgsStack 2 ["int"] stack with
  | .error e => .error e
  | .ok (arg, rest) =>
    match arg with
    | [a0, a1] =>
      if a1.type ≠ "int" then .error (.exit Error.Invalid_type)
      else
        match a1.value with
        | .int i => .ok (⟨.float (i : ℚ), a0.name, "float"⟩ :: rest)
        | _ => .error .crash
    | _ => .error .crash

/-- Model of `__eq` on already-resolved operands (mask `"ibsnf"`): both nil →
`True`; exactly one nil → `False`; same type → value equality; otherwise
exit 53. -/
def eqOp (a b : Variable) : Except Err Bool :=
  if a.type = "nil" ∧ b.type = "nil" then .ok true
  else if a.type = "nil" ∨ b.type = "nil" then .ok false
  else if a.type = b.type then .ok (pyEq a.value b.value)
  else .error (.exit Error.Invalid_type)

/-- Branch decision of `__jumpifeq` on already-resolved operands: note
the SAME-TYPE test comes first, so two nil operands are compared by
value, unlike in `__eq`; a type mismatch involving nil falls through;
otherwise exit 53. -/
def jumpifeqTakes (a b : Variable) : Except Err Bool :=
  if a.type = b.type then .ok (pyEq a.value b.value)
  else if a.type = "nil" ∨ b.type = "nil" then .ok false
  else .error (.exit Error.Invalid_type)

/-- Branch decision of `__jumpifneq`: same-type → jump iff values differ;
a type mismatch involving nil jumps; otherwise exit 53. -/
def jumpifneqTakes (a b : Variable) : Except Err Bool :=
  if a.type = b.type then .ok (!pyEq a.value b.value)
  else if a.type = "nil" ∨ b.type = "nil" then .ok true
  else .error (.exit Error.Invalid_type)

/-- Model of `__pushframe`: push the temporary frame (exit 55 if it is `None`)
and clear it. -/
def pushframeOp (st : EngState) : Except Err EngState :=
  match st.temporary_frame with
  | some tf =>
    .ok { st with frame_stack := tf :: st.frame_stack,
                  temporary_frame := Option.none }
  | Option.none => .error (.exit Error.Frame_not_found)

/-- Model of `__popframe`: pop the frame stack into the temporary frame (exit 55
if empty). -/
def popframeOp (st : EngState) : Except Err EngState :=
  match st.frame_stack with
  | f :: rest =>
    .ok { st with temporary_frame := some f, frame_stack := rest }
  | [] => .error (.exit Error.Frame_not_found)

/-- Model of `__type` on an already-resolved (take-type) operand: the destination
receives the variant name — `""` for an uninitialized slot — as a
string. -/
def typeOp (v : Variable) : Variable := ⟨.str v.type, "", "string"⟩

/-- Negating both arguments leaves Python floor division unchanged. -/
theorem fdiv_neg_neg (x y : Int) : Int.fdiv (-x) (-y) = Int.fdiv x y := by
  rcases x with m | m <;> rcases y with n | n
  · rcases m with _ | m <;> rcases n with _ | n
    · rfl
    · rfl
    · show (0 : Int) = Int.ofNat ((m + 1) / 0)
      rw [Nat.div_zero]
      rfl
    · rfl
  · rcases m with _ | m <;> rfl
  · rcases n with _ | n
    · show Int.ofNat ((m + 1) / 0) = (0 : Int)
      rw [Nat.div_zero]
      rfl
    · rfl
  · rfl

/-- Floor division with a positive divisor is the rational floor. -/
theorem fdiv_eq_floor_pos (x y : Int) (hy : 0 < y) :
    Int.fdiv x y = ⌊(x : ℚ) / (y : ℚ)⌋ := by
  have hnn : 0 ≤ y := le_of_lt hy
  have h1 := Rat.floor_intCast_div_natCast x y.toNat
  have h2 : ((y.toNat : ℕ) : ℚ) = (y : ℚ) := by
    exact_mod_cast congrArg (fun z : ℤ => (z : ℚ)) (Int.toNat_of_nonneg hnn)
  rw [h2, Int.toNat_of_nonneg hnn] at h1
  rw [Int.fdiv_eq_ediv x hnn, h1]

/-- Python `//` on a nonzero divisor is the mathematical floor of the
exact rational quotient. -/
theorem fdiv_eq_floor (x y : Int) (hy : y ≠ 0) :
    Int.fdiv x y = ⌊(x : ℚ) / (y : ℚ)⌋ := by
  rcases lt_or_gt_of_ne hy with h | h
  · have hpos : 0 < -y := by omega
    have hneg := fdiv_eq_floor_pos (-x) (-y) hpos
    rw [fdiv_neg_neg] at hneg
    rw [hneg]
    congr 1
    push_cast
    rw [neg_div_neg_eq]
  · exact fdiv_eq_floor_pos x y h

/-- Splitting a string that does not contain the separator returns the
one-element list, as in Python. -/
theorem pySplit_no_sep (sep : Char) (s : List Char) (h : sep ∉ s) :
    pySplit sep s = [s] := by
  induction s with
  | nil => rfl
  | cons c rest ih =>
    simp only [List.mem_cons, not_or] at h
    have hc : ¬c = sep := fun hcc => h.1 hcc.symm
    simp [pySplit, ih h.2, hc]

/-- Splitting `GF@name` at `'@'` when the name has no `'@'`. -/
theorem pySplit_gf (cs : List Char) (h : '@' ∉ cs) :
    pySplit '@' ('G' :: 'F' :: '@' :: cs) = [['G', 'F'], cs] := by
  simp [pySplit, pySplit_no_sep '@' cs h]

/-- C5: for IDIV and IDIVS on two `Int` operands (for the stack variant:
`y` on top of `x`), a zero divisor exits 57 (invalid-value); otherwise
the stored result is the `Int` floor — truncation toward negative
infinity — of the exact quotient `x / y`. -/
theorem c5_idiv_floor (x y : Int) (rest : List Variable) :
    (y = 0 →
      idivOp ⟨.int x, "", "int"⟩ ⟨.int y, "", "int"⟩ =
        .error (.exit Error.Invalid_value) ∧
      idivsOp (⟨.int y, "", "int"⟩ :: ⟨.int x, "", "int"⟩ :: rest) =
        .error (.exit Error.Invalid_value)) ∧
    (y ≠ 0 →
      idivOp ⟨.int x, "", "int"⟩ ⟨.int y, "", "int"⟩ =
        .ok ⟨.int ⌊(x : ℚ) / (y : ℚ)⌋, "", "int"⟩ ∧
      idivsOp (⟨.int y, "", "int"⟩ :: ⟨.int x, "", "int"⟩ :: rest) =
        .ok (⟨.int ⌊(x : ℚ) / (y : ℚ)⌋, "", "int"⟩ :: rest)) := by
  constructor
  · intro h
    subst h
    exact ⟨rfl, by simp [idivsOp, getArgsStack]⟩
  · intro h
    have hf := fdiv_eq_floor x y h
    exact ⟨by simp [idivOp, h, hf], by simp [idivsOp, getArgsStack, h, hf]⟩

/-- C5 witness: `7 // (-2)` stores `-4`, the floor of `-3.5`. -/
theorem c5_idiv_floor_witness :
    idivOp ⟨.int 7, "", "int"⟩ ⟨.int (-2), "", "int"⟩ =
      .ok ⟨.int ⌊((7 : Int) : ℚ) / (((-2 : Int)) : ℚ)⌋, "", "int"⟩ ∧
    idivsOp [⟨.int (-2), "", "int"⟩, ⟨.int 7, "", "int"⟩] =
      .ok [⟨.int ⌊((7 : Int) : ℚ) / (((-2 : Int)) : ℚ)⌋, "", "int"⟩] :=
  (c5_idiv_floor 7 (-2) []).2 (by decide)

/-- C6: with a defined temporary frame, PUSHFRAME yields exactly the
state with that frame pushed and the temporary frame cleared, and
POPFRAME on that intermediate state restores the original state — same
frame contents, same frame-stack height; with the temporary frame absent
PUSHFRAME exits 55 (frame-not-found). -/
theorem c6_pushframe_popframe (st : EngState) (tf : Frame) :
    (st.temporary_frame = some tf →
      pushframeOp st =
        .ok { st with frame_stack := tf :: st.frame_stack,
                      temporary_frame := Option.none } ∧
      popframeOp { st with frame_stack := tf :: st.frame_stack,
                           temporary_frame := Option.none } = .ok st) ∧
    (st.temporary_frame = Option.none →
      pushframeOp st = .error (.exit Error.Frame_not_found)) := by
  rcases st with ⟨tfo, fs, gf, ds⟩
  constructor
  · intro h
    simp only at h
    subst h
    exact ⟨rfl, rfl⟩
  · intro h
    simp only at h
    subst h
    rfl

/-- C6 witness: a concrete one-variable temporary frame makes the round
trip. -/
theorem c6_pushframe_popframe_witness :
    pushframeOp ⟨some ⟨[("x", ⟨.int 7, "x", "int"⟩)]⟩, [], ⟨[]⟩, []⟩ =
      .ok ⟨Option.none, [⟨[("x", ⟨.int 7, "x", "int"⟩)]⟩], ⟨[]⟩, []⟩ ∧
    popframeOp ⟨Option.none, [⟨[("x", ⟨.int 7, "x", "int"⟩)]⟩], ⟨[]⟩, []⟩ =
      .ok ⟨some ⟨[("x", ⟨.int 7, "x", "int"⟩)]⟩, [], ⟨[]⟩, []⟩ :=
  (c6_pushframe_popframe ⟨some ⟨[("x", ⟨.int 7, "x", "int"⟩)]⟩, [], ⟨[]⟩, []⟩
    ⟨[("x", ⟨.int 7, "x", "int"⟩)]⟩).1 rfl

/-- C7: DEFVAR on a fresh name creates an uninitialized slot (`type =
""`); reading it through the non-take-type resolver path exits 56
(missing-value) whatever the mask, the take-type path (used by TYPE)
succeeds and TYPE stores the empty string; redeclaring the name exits 52
(semantic-error). -/
theorem c7_defvar_uninitialized (f : Frame) (n : String)
    (h : f.frame.lookup n = Option.none) :
    ∃ f' : Frame, f.add n = .ok f' ∧
      f'.get n = .ok ⟨.none, n, ""⟩ ∧
      (∀ limit : List String,
        checkSrcVar ⟨.none, n, ""⟩ limit false =
          .error (.exit Error.Missing_value)) ∧
      (∀ limit : List String,
        checkSrcVar ⟨.none, n, ""⟩ limit true = .ok ⟨.none, n, ""⟩) ∧
      typeOp ⟨.none, n, ""⟩ = ⟨.str "", "", "string"⟩ ∧
      f'.add n = .error (.exit Error.Semantic_error) := by
  refine ⟨⟨(n, ⟨.none, n, ""⟩) :: f.frame⟩, ?_, ?_, ?_, ?_, rfl, ?_⟩
  · simp [Frame.add, h]
  · simp [Frame.get, List.lookup]
  · intro limit
    simp [checkSrcVar]
  · intro limit
    simp [checkSrcVar]
  · simp [Frame.add, List.lookup]

/-- C7 witness: declaring `x` in an empty frame. -/
theorem c7_defvar_uninitialized_witness :
    ∃ f' : Frame, Frame.add ⟨[]⟩ "x" = .ok f' ∧
      f'.get "x" = .ok ⟨.none, "x", ""⟩ ∧
      (∀ limit : List String,
        checkSrcVar ⟨.none, "x", ""⟩ limit false =
          .error (.exit Error.Missing_value)) ∧
      (∀ limit : List String,
        checkSrcVar ⟨.none, "x", ""⟩ limit true = .ok ⟨.none, "x", ""⟩) ∧
      typeOp ⟨.none, "x", ""⟩ = ⟨.str "", "", "string"⟩ ∧
      f'.add "x" = .error (.exit Error.Semantic_error) :=
  c7_defvar_uninitialized ⟨[]⟩ "x" rfl

/-- C8: the claim says INT2FLOATS pops exactly the one top value.  As
written it pops TWO: on the stack `[5, 7]` (7 on top) it leaves only
`7.0`, silently consuming the 5; and on the one-element stack `[7]` it
exits 56 instead of succeeding. -/
theorem c8_int2floats_pops_two :
    int2floatsOp [⟨.int 7, "", "int"⟩, ⟨.int 5, "", "int"⟩] =
      .ok [⟨.float 7, "", "float"⟩] ∧
    int2floatsOp [⟨.int 7, "", "int"⟩] =
      .error (.exit Error.Missing_value) := by
  constructor <;> rfl

/-- C9: the claim says a `var` payload whose frame tag is outside
GF/LF/TF exits 53 (invalid-type).  Instead `__get_frame` returns `None`
and the interpreter crashes with `AttributeError`, both on the
destination path (`XF@a`) and on the source path, where a payload without
`@` (`GFa`) crashes the same way instead of exiting 53. -/
theorem c9_unknown_frame_tag_crashes :
    resolveDest ⟨Option.none, [], ⟨[]⟩, []⟩ ⟨"var", some "XF@a"⟩ =
      .error .crash ∧
    resolveSrcVar ⟨Option.none, [], ⟨[]⟩, []⟩ "GFa" = .error .crash ∧
    resolveDest ⟨Option.none, [], ⟨[]⟩, []⟩ ⟨"var", some "GFa"⟩ =
      .error (.exit Error.Invalid_type) ∧
    Err.crash ≠ Err.exit Error.Invalid_type := by
  refine ⟨?_, ?_, ?_, by decide⟩ <;> rfl

/-- C10: a variable reference whose frame resolves but whose name is not
declared there exits 54 (nonexistent-variable); the check sits in
`Frame.get`, so both the destination path and the source path of the
operand resolver surface it identically. -/
theorem c10_missing_slot_exit54 (st : EngState) (n : String)
    (hn : st.global_frame.frame.lookup n = Option.none)
    (ha : '@' ∉ n.data) :
    st.global_frame.get n = .error (.exit Error.Nonexistent_variable) ∧
    resolveDest st ⟨"var", some ("GF@" ++ n)⟩ =
      .error (.exit Error.Nonexistent_variable) ∧
    resolveSrcVar st ("GF@" ++ n) =
      .error (.exit Error.Nonexistent_variable) := by
  have hdata : ("GF@" ++ n).data = 'G' :: 'F' :: '@' :: n.data := by
    simp [String.data_append]
  have hsplit : pySplit '@' ('G' :: 'F' :: '@' :: n.data) = [['G', 'F'], n.data] :=
    pySplit_gf n.data ha
  have hmk : String.mk n.data = n := rfl
  have hgf : String.mk ['G', 'F'] = "GF" := rfl
  refine ⟨?_, ?_, ?_⟩
  · simp [Frame.get, hn]
  · simp [resolveDest, hdata, hsplit, hgf, getFrame, hmk, Frame.get, hn]
  · simp [resolveSrcVar, hdata, hsplit, hgf, getFrame, hmk, Frame.get, hn]

/-- C10 witness: looking up `x` in the empty global frame. -/
theorem c10_missing_slot_exit54_witness :
    Frame.get ⟨[]⟩ "x" = .error (.exit Error.Nonexistent_variable) ∧
    resolveDest ⟨Option.none, [], ⟨[]⟩, []⟩ ⟨"var", some ("GF@" ++ "x")⟩ =
      .error (.exit Error.Nonexistent_variable) ∧
    resolveSrcVar ⟨Option.none, [], ⟨[]⟩, []⟩ ("GF@" ++ "x") =
      .error (.exit Error.Nonexistent_variable) :=
  c10_missing_slot_exit54 ⟨Option.none, [], ⟨[]⟩, []⟩ "x" rfl (by decide)

/-- C1 counterexample: two operands that are both of the Nil variant but
carry different payload texts (the loader accepts any text for a `nil`
literal).  The claim says they compare equal — so JUMPIFEQ should jump
and JUMPIFNEQ should fall through — and EQ indeed answers true, but the
jump opcodes test the types first and then compare the payloads by value:
JUMPIFEQ does not jump and JUMPIFNEQ does. -/
theorem c1_both_nil_jump_counterexample :
    (Variable.mk (.str "nil") "" "nil").type = "nil" ∧
    (Variable.mk (.str "x") "" "nil").type = "nil" ∧
    eqOp (Variable.mk (.str "nil") "" "nil")
      (Variable.mk (.str "x") "" "nil") = .ok true ∧
    jumpifeqTakes (Variable.mk (.str "nil") "" "nil")
      (Variable.mk (.str "x") "" "nil") = .ok false ∧
    jumpifneqTakes (Variable.mk (.str "nil") "" "nil")
      (Variable.mk (.str "x") "" "nil") = .ok true := by
  exact ⟨rfl, rfl, rfl, rfl, rfl⟩

/-- C1 amended: when the operands share a variant, EQ answers true for
two Nils regardless of payload and value equality otherwise, while
JUMPIFEQ/JUMPIFNEQ always compare by value (which coincides with the
claim for the standard `nil@nil` payload); when exactly one operand is
Nil the comparison is unequal — EQ answers false, JUMPIFEQ falls through,
JUMPIFNEQ jumps; every other variant pair exits 53 (invalid-type) in all
three opcodes. -/
theorem c1_eq_jump_comparison_amended (a b : Variable) :
    (a.type = b.type →
      jumpifeqTakes a b = .ok (pyEq a.value b.value) ∧
      jumpifneqTakes a b = .ok (!pyEq a.value b.value) ∧
      eqOp a b = .ok (if a.type = "nil" then true else pyEq a.value b.value)) ∧
    (a.type ≠ b.type → (a.type = "nil" ∨ b.type = "nil") →
      eqOp a b = .ok false ∧
      jumpifeqTakes a b = .ok false ∧
      jumpifneqTakes a b = .ok true) ∧
    (a.type ≠ b.type → a.type ≠ "nil" → b.type ≠ "nil" →
      eqOp a b = .error (.exit Error.Invalid_type) ∧
      jumpifeqTakes a b = .error (.exit Error.Invalid_type) ∧
      jumpifneqTakes a b = .error (.exit Error.Invalid_type)) := by
  refine ⟨?_, ?_, ?_⟩
  · intro h
    refine ⟨by simp [jumpifeqTakes, h], by simp [jumpifneqTakes, h], ?_⟩
    by_cases hn : a.type = "nil"
    · have hb : b.type = "nil" := h ▸ hn
      simp [eqOp, hn, hb]
    · have hb : ¬b.type = "nil" := fun hbb => hn (h.trans hbb)
      simp [eqOp, hn, hb, h]
  · intro h hnil
    have hc1 : ¬(a.type = "nil" ∧ b.type = "nil") := by
      rintro ⟨hx, hy⟩
      exact h (hx.trans hy.symm)
    exact ⟨by simp [eqOp, hc1, hnil], by simp [jumpifeqTakes, h, hnil],
      by simp [jumpifneqTakes, h, hnil]⟩
  · intro h h1 h2
    have hc1 : ¬(a.type = "nil" ∧ b.type = "nil") := fun hx => h1 hx.1
    have hc2 : ¬(a.type = "nil" ∨ b.type = "nil") := by
      rintro (hx | hx)
      · exact h1 hx
      · exact h2 hx
    exact ⟨by simp [eqOp, hc1, hc2, h], by simp [jumpifeqTakes, h, hc2],
      by simp [jumpifneqTakes, h, hc2]⟩

/-- C1 witness: two equal ints take the same-variant branch. -/
theorem c1_eq_jump_comparison_amended_witness :
    jumpifeqTakes ⟨.int 3, "", "int"⟩ ⟨.int 3, "", "int"⟩ =
      .ok (pyEq (.int 3) (.int 3)) ∧
    jumpifneqTakes ⟨.int 3, "", "int"⟩ ⟨.int 3, "", "int"⟩ =
      .ok (!pyEq (.int 3) (.int 3)) ∧
    eqOp ⟨.int 3, "", "int"⟩ ⟨.int 3, "", "int"⟩ =
      .ok (if ("int" : String) = "nil" then true
           else pyEq (.int 3) (.int 3)) :=
  (c1_eq_jump_comparison_amended ⟨.int 3, "", "int"⟩ ⟨.int 3, "", "int"⟩).1 rfl

/-- C2: with `b` pushed after `a` (so `b` is on top) and both operands
of the same numeric variant, SUBS pops both and pushes the single value
`a - b` — the later-pushed top of stack is the right-hand side — and
its result payload and result variant are exactly those the register
variant SUB computes on `a` and `b`. -/
theorem c2_subs_refines_sub (a b : Variable) (rest : List Variable)
    (h : (a.type = "int" ∧ b.type = "int" ∧
          (∃ i : Int, a.value = .int i) ∧ (∃ j : Int, b.value = .int j)) ∨
         (a.type = "float" ∧ b.type = "float" ∧
          (∃ p : ℚ, a.value = .float p) ∧ (∃ q : ℚ, b.value = .float q))) :
    ∃ v : PyVal, pySub a.value b.value = some v ∧
      subOp a b = .ok ⟨v, "", a.type⟩ ∧
      subsOp (b :: a :: rest) = .ok (⟨v, a.name, a.type⟩ :: rest) := by
  rcases h with ⟨ha, hb, ⟨i, hvi⟩, ⟨j, hvj⟩⟩ | ⟨ha, hb, ⟨p, hvp⟩, ⟨q, hvq⟩⟩
  · refine ⟨.int (i - j), ?_, ?_, ?_⟩ <;>
      simp [subOp, subsOp, getArgsStack, pySub, get_type, ha, hb, hvi, hvj]
  · refine ⟨.float (p - q), ?_, ?_, ?_⟩ <;>
      simp [subOp, subsOp, getArgsStack, pySub, get_type, ha, hb, hvp, hvq]

/-- C2 witness: `5 - 3` through both SUB and SUBS. -/
theorem c2_subs_refines_sub_witness :
    ∃ v : PyVal, pySub (.int 5) (.int 3) = some v ∧
      subOp ⟨.int 5, "", "int"⟩ ⟨.int 3, "", "int"⟩ = .ok ⟨v, "", "int"⟩ ∧
      subsOp [⟨.int 3, "", "int"⟩, ⟨.int 5, "", "int"⟩] =
        .ok [⟨v, "", "int"⟩] :=
  c2_subs_refines_sub ⟨.int 5, "", "int"⟩ ⟨.int 3, "", "int"⟩ []
    (Or.inl ⟨rfl, rfl, ⟨5, rfl⟩, ⟨3, rfl⟩⟩)

/-- C3: WRITE appends exactly `__process_output`'s text to standard
output, with no trailing newline; that text is the escape-decoded string
for strings — each backslash followed by exactly three decimal digits
becomes the code point they denote, every other character is copied
unchanged — the decimal rendering for ints, `true`/`false` for bools and
the empty string for Nil. -/
theorem c3_write_format (fh : ℚ → String) (out : String) :
    (∀ v : Variable, writeOp fh out v = out ++ process_output fh v) ∧
    (∀ s nm : String,
      process_output fh ⟨.str s, nm, "string"⟩ =
        String.mk (parseStringAux s.data)) ∧
    (∀ d1 d2 d3 : Char, ∀ rest : List Char,
      d1.isDigit → d2.isDigit → d3.isDigit →
      parseStringAux ('\\' :: d1 :: d2 :: d3 :: rest) =
        Char.ofNat (100 * digitVal d1 + 10 * digitVal d2 + digitVal d3) ::
          parseStringAux rest) ∧
    (∀ c : Char, ∀ rest : List Char, c ≠ '\\' →
      parseStringAux (c :: rest) = c :: parseStringAux rest) ∧
    (∀ i : Int, ∀ nm : String,
      process_output fh ⟨.int i, nm, "int"⟩ = toString i) ∧
    (∀ b : Bool, ∀ nm : String,
      process_output fh ⟨.bool b, nm, "bool"⟩ =
        if b then "true" else "false") ∧
    (∀ p : PyVal, ∀ nm : String, process_output fh ⟨p, nm, "nil"⟩ = "") := by
  refine ⟨fun v => rfl, fun s nm => rfl, ?_, ?_, fun i nm => rfl,
    fun b nm => rfl, ?_⟩
  · intro d1 d2 d3 rest h1 h2 h3
    rw [parseStringAux.eq_def]
    simp [h1, h2, h3]
  · intro c rest hc
    rw [parseStringAux.eq_def]
    rcases rest with _ | ⟨d1, _ | ⟨d2, _ | ⟨d3, r⟩⟩⟩ <;> simp [hc]
  · intro p nm
    rcases p with _ | s | i | b | q <;> rfl

/-- C3 witness: decoding the escape `\010` to a newline. -/
theorem c3_write_format_witness :
    parseStringAux ('\\' :: '0' :: '1' :: '0' :: []) =
      Char.ofNat (100 * digitVal '0' + 10 * digitVal '1' + digitVal '0') ::
        parseStringAux [] :=
  (c3_write_format (fun _ => "") "").2.2.1 '0' '1' '0' []
    (by decide) (by decide) (by decide)

/-- C4: the claim says an empty input line stores Nil, a parse failure
stores Nil, and READ never terminates the process on malformed input.
In the code only end-of-stream produces the `"nil"` sentinel: an empty
line reaches the per-type parsers, where `float` matches the first regex
with no digits and `float('')`/`float('.')` raises an uncaught
`ValueError` — the process dies — while `bool` stores `false` and
`string` stores the empty string rather than Nil; `int` (and well-formed
`float` failures such as `abc`) do store Nil, and end-of-stream stores
Nil for every type. -/
theorem c4_read_empty_and_malformed_input :
    readOp "float" (.line "") = .error .crash ∧
    readOp "float" (.line ".") = .error .crash ∧
    readOp "bool" (.line "") = .ok ⟨.bool false, "", "bool"⟩ ∧
    readOp "string" (.line "") = .ok ⟨.str "", "", "string"⟩ ∧
    readOp "int" (.line "") = .ok ⟨.str "nil", "", "nil"⟩ ∧
    readOp "int" (.line "abc") = .ok ⟨.str "nil", "", "nil"⟩ ∧
    readOp "float" (.line "abc") = .ok ⟨.str "nil", "", "nil"⟩ ∧
    readOp "bool" (.line "TRUE") = .ok ⟨.bool true, "", "bool"⟩ ∧
    readOp "bool" (.line "yes") = .ok ⟨.bool false, "", "bool"⟩ ∧
    readOp "int" .eof = .ok ⟨.str "nil", "", "nil"⟩ ∧
    readOp "float" .eof = .ok ⟨.str "nil", "", "nil"⟩ ∧
    readOp "string" .eof = .ok ⟨.str "nil", "", "nil"⟩ ∧
    readOp "bool" .eof = .ok ⟨.str "nil", "", "nil"⟩ := by
  exact ⟨rfl, rfl, rfl, rfl, rfl, rfl, rfl, rfl, rfl, rfl, rfl, rfl, rfl⟩

end IPPcode23
